import Mathlib

/-!
Verification of the chat-away repository: a shallow embedding of its
session store, routing heuristic, search dispatcher, completion routing
and realtime (WebSocket) message handling, with theorems about the
behaviours the specification describes.

Python `st.session_state` is modelled as an explicit `SessionState`
record threaded through every operation.  JSON values (results of
`json.loads`) are modelled by the inductive `Json`; Python truthiness
and dictionary lookup are modelled by `pyTruthy` and `pyLookup`.
-/

/-- JSON values as produced by `json.loads`.  An object is an association
list of fields; `json.loads` keeps the last binding of a duplicated key,
which `pyLookup` reflects. -/
inductive Json where
  | null
  | bool (b : Bool)
  | num (n : Int)
  | str (s : String)
  | arr (elems : List Json)
  | obj (fields : List (String × Json))

instance : Inhabited Json := ⟨Json.null⟩

/-- Python dictionary lookup on the association-list model of an object:
the LAST binding of a key wins, matching `json.loads` duplicate-key
semantics. -/
def pyLookup (kvs : List (String × Json)) (k : String) : Option Json :=
  match kvs with
  | [] => none
  | (k2, v) :: rest =>
    match pyLookup rest k with
    | some r => some r
    | none => if k2 == k then some v else none

/-- Python truthiness of a JSON value (`if v:` / `v or d`). -/
def pyTruthy : Json → Bool
  | Json.null => false
  | Json.bool b => b
  | Json.num n => n != 0
  | Json.str s => s != ""
  | Json.arr xs => !xs.isEmpty
  | Json.obj kvs => !kvs.isEmpty

/-- Whether Python `len(v)` succeeds on a JSON value (it raises
`TypeError` on numbers, booleans and `None`). -/
def pyHasLen : Json → Bool
  | Json.str _ => true
  | Json.arr _ => true
  | Json.obj _ => true
  | _ => false

/-- Python `str()` of a scalar JSON value, as interpolated by the
f-string in `handle_websocket_message`.  Rendering of nested arrays and
objects (Python repr) is not modelled: those cases return `none` and are
outside every claim, which only concerns string-valued fields. -/
def pyStrScalar : Json → Option String
  | Json.str s => some s
  | Json.num n => some (toString n)
  | Json.bool b => some (if b then "True" else "False")
  | Json.null => some "None"
  | _ => none

/-- Python truthiness of the optional `search_query` argument of
`add_message` (`if search_query:`): `None` and `""` are falsy. -/
def strTruthy : Option String → Bool
  | none => false
  | some s => s != ""

/-- One entry of `st.session_state.messages`, built by `add_message`
(src/app/utils/session.py).  `search_query = none` models the absence of
the `"search_query"` key in the Python dict. -/
structure Message where
  role : String
  content : String
  timestamp : Nat
  search_query : Option String
deriving DecidableEq

instance : Inhabited Message := ⟨⟨"", "", 0, none⟩⟩

/-- Configuration dictionary built by `load_config`
(src/app/utils/config.py). -/
structure AppConfig where
  openai_api_key : String
  default_model : String
  aws_api_endpoint : String
  aws_websocket_url : String
  aws_api_key : String
  debug : Bool
deriving DecidableEq

/-- The defaults `load_config` produces when no environment variable is
set (src/app/utils/config.py lines 24-37). -/
def load_config_defaults : AppConfig :=
  { openai_api_key := ""
    default_model := "gpt-4"
    aws_api_endpoint := ""
    aws_websocket_url := ""
    aws_api_key := ""
    debug := false }

/-- The mutable attributes of a `WebSocketClient` object
(src/app/services/websocket_client.py).  `ws_created` models
`self.ws is not None` and `thread_started` models the receive thread
having been started by `connect`. -/
structure ClientState where
  websocket_url : String
  ws_created : Bool
  thread_started : Bool
  is_connected : Bool
deriving DecidableEq

/-- The Streamlit session state fields this application reads or writes.
`search_results` holds the raw JSON value stored by
`handle_websocket_message`; `timestampField` models the optional
`"_timestamp"` entry read by `add_message` via
`st.session_state.get("_timestamp", 0)` (never written by this
repository). -/
structure SessionState where
  messages : List Message
  conversation_id : Json
  websocket_connected : Bool
  search_results : Json
  openai_model : String
  websocket_client : Option ClientState
  timestampField : Option Nat
  config : AppConfig

/-- `initialize_session_state` on a fresh session
(src/app/utils/session.py lines 7-35); `config` is stored by `main`
before initialization (src/app/main.py lines 17-18). -/
def initial_session_state (cfg : AppConfig) : SessionState :=
  { messages := []
    conversation_id := Json.null
    websocket_connected := false
    search_results := Json.arr []
    openai_model := "gpt-4"
    websocket_client := none
    timestampField := none
    config := cfg }

/-- `add_message` (src/app/utils/session.py lines 37-59): appends one
message record; the `search_query` key is added only when the argument
is truthy (`if search_query:`). -/
def add_message (role content : String) (search_query : Option String)
    (s : SessionState) : SessionState :=
  let msg : Message :=
    { role := role
      content := content
      timestamp := s.timestampField.getD 0
      search_query := if strTruthy search_query then search_query else none }
  { s with messages := s.messages ++ [msg] }

/-- `clear_conversation` (src/app/utils/session.py lines 71-77): resets
`messages`, `conversation_id` and `search_results`. -/
def clear_conversation (s : SessionState) : SessionState :=
  { s with
    messages := []
    conversation_id := Json.null
    search_results := Json.arr [] }

/-- Substring test on character lists, modelling the Python string
`in` operator used by `should_use_semantic_search`. -/
def subList (needle hay : List Char) : Bool :=
  needle.isPrefixOf hay ||
    match hay with
    | [] => false
    | _ :: t => subList needle t

/-- Python `needle in hay` for strings. -/
def pyInStr (needle hay : String) : Bool :=
  subList needle.data hay.data

/-- Python `str.lower()` as used on the user input (ASCII lowering,
character by character; the keywords and inputs of interest are all
ASCII).  Defined over the character list so that it reduces. -/
def strLower (s : String) : String := String.mk (s.data.map Char.toLower)

/-- The fixed keyword list of `should_use_semantic_search`
(src/app/services/openai_service.py lines 128-131). -/
def search_keywords : List String :=
  ["search", "find", "look up", "lookup", "search for",
   "find information", "get information", "retrieve"]

/-- `should_use_semantic_search` (src/app/services/openai_service.py
lines 116-137): any keyword occurs in the lowercased input. -/
def should_use_semantic_search (user_input : String) : Bool :=
  search_keywords.any (fun kw => pyInStr kw (strLower user_input))

/-- Outcome of `requests.post` in `SearchService.perform_search`:
either a response with a status code and a body (`none` when
`response.json()` raises because the body is not JSON), or a raised
transport exception. -/
inductive HttpOutcome where
  | response (status : Nat) (body : Option Json)
  | exn

/-- Whether an outcome is the 202 Accepted success
(`response.status_code == 202`). -/
def outcomeAccepted : HttpOutcome → Bool
  | HttpOutcome.response status _ => status == 202
  | HttpOutcome.exn => false

/-- The request payload `perform_search` sends
(src/app/services/search_service.py lines 49-52). -/
structure SearchCall where
  query : String
  conversation_id : Json

/-- The `conversation_id` field of the payload:
`st.session_state.conversation_id or "new_conversation"`
(src/app/services/search_service.py line 46). -/
def payloadConversationId (s : SessionState) : Json :=
  if pyTruthy s.conversation_id then s.conversation_id
  else Json.str "new_conversation"

/-- `SearchService.perform_search` (src/app/services/search_service.py
lines 32-95).  Returns (result, updated session, sent payload).  On 202
with no stored conversation id, the body is probed for a truthy
`conversation_id` which is adopted; every failure of that probe (body
not JSON, body not an object, key absent or falsy) is caught by the
inner `except` and the function still returns `True`.  A non-202 status
or a transport exception returns `False`; the outer `except` catches
everything, so the function never raises. -/
def perform_search (query : String) (outcome : HttpOutcome)
    (s : SessionState) : Bool × SessionState × SearchCall :=
  let call : SearchCall :=
    { query := query, conversation_id := payloadConversationId s }
  let res : Bool × SessionState :=
    match outcome with
    | HttpOutcome.exn => (false, s)
    | HttpOutcome.response status body =>
      if status == 202 then
        if pyTruthy s.conversation_id then (true, s)
        else
          match body with
          | none => (true, s)
          | some j =>
            match j with
            | Json.obj kvs =>
              match pyLookup kvs "conversation_id" with
              | some v =>
                if pyTruthy v then
                  (true, { s with conversation_id := v })
                else (true, s)
              | none => (true, s)
            | _ => (true, s)
      else (false, s)
  (res.1, res.2, call)

/-- `process_user_input` (src/app/services/openai_service.py lines
60-114).  The `completion` parameter models the outcome of the guarded
try-block (config fetch plus `OpenAIService.generate_response`): `.ok
reply` is the stripped completion text, `.error e` is `str(e)` of any
raised exception, which the `except` turns into the textual reply
`"Error: " ++ e` without appending any assistant message.  On the
search route the boolean result of `perform_search` is ignored and the
fixed text is returned.  The third component is the search payload that
was dispatched, when one was. -/
def process_user_input (user_input : String)
    (completion : Except String String) (outcome : HttpOutcome)
    (s : SessionState) : String × SessionState × Option SearchCall :=
  let s1 := add_message "user" user_input none s
  if should_use_semantic_search user_input then
    let r := perform_search user_input outcome s1
    ("Searching for relevant information...", r.2.1, some r.2.2)
  else
    match completion with
    | Except.ok reply =>
      (reply, add_message "assistant" reply none s1, none)
    | Except.error e => ("Error: " ++ e, s1, none)

/-- A `{title, snippet}` search result record (spec §3 data model). -/
structure SearchResult where
  title : String
  snippet : String
deriving DecidableEq

/-- Extraction of one result record as `handle_websocket_message`
accesses it: `result["title"]` and `result["snippet"]` on a dict,
rendered by the f-string.  `none` models a raised `KeyError` /
`TypeError` (non-dict element, missing key, or an unmodelled nested
rendering, see `pyStrScalar`). -/
def extractRecord (j : Json) : Option SearchResult :=
  match j with
  | Json.obj kvs =>
    match pyLookup kvs "title", pyLookup kvs "snippet" with
    | some tv, some sv =>
      match pyStrScalar tv, pyStrScalar sv with
      | some t, some sn => some { title := t, snippet := sn }
      | _, _ => none
    | _, _ => none
  | _ => none

/-- All records of a result array, or `none` as soon as one raises. -/
def extractRecords (results : List Json) : Option (List SearchResult) :=
  match results with
  | [] => some []
  | r :: rest =>
    match extractRecord r, extractRecords rest with
    | some rec, some recs => some (rec :: recs)
    | _, _ => none

/-- The line the f-string builds for result number `idx`
(src/app/services/websocket_client.py line 125). -/
def formatResultLine (idx : Nat) (r : Json) : Option String :=
  match r with
  | Json.obj kvs =>
    match pyLookup kvs "title", pyLookup kvs "snippet" with
    | some tv, some sv =>
      match pyStrScalar tv, pyStrScalar sv with
      | some t, some sn =>
        some (toString idx ++ ". " ++ t ++ ": " ++ sn ++ "\n")
      | _, _ => none
    | _, _ => none
  | _ => none

/-- The loop of `handle_websocket_message` over `enumerate(results, 1)`
starting at index `idx`; `none` models a raised exception part-way
(nothing is appended in that case, since `add_message` runs only after
the whole loop). -/
def searchResultsText (idx : Nat) (results : List Json) : Option String :=
  match results with
  | [] => some ""
  | r :: rest =>
    match formatResultLine idx r, searchResultsText (idx + 1) rest with
    | some line, some restText => some (line ++ restText)
    | _, _ => none

/-- The enumeration the claim describes, over extracted records: line
`i` is `i ++ ". " ++ title ++ ": " ++ snippet` followed by a newline,
indices counting from `i`. -/
def specLinesFrom (i : Nat) (rs : List SearchResult) : String :=
  match rs with
  | [] => ""
  | r :: rest =>
    (toString i ++ ". " ++ r.title ++ ": " ++ r.snippet ++ "\n")
      ++ specLinesFrom (i + 1) rest

/-- `handle_websocket_message` (src/app/services/websocket_client.py
lines 105-143).  All exceptions are caught internally (the trailing
`except` logs them), so the function is total and never invokes the
error handler.  For a non-dict frame, either the membership test or the
fallthrough logging raises and is caught: state unchanged.  For a
`search_results` value on which `len()` raises (number, boolean, null)
the exception fires before any mutation.  Otherwise the raw value is
stored in `search_results` first; a falsy value appends the fixed
no-results message, an array appends the formatted enumeration when no
element raises, and a non-empty string or object raises during the loop
after the store (left unchanged apart from the store). -/
def handle_websocket_message (data : Json) (s : SessionState) :
    SessionState :=
  match data with
  | Json.obj kvs =>
    match pyLookup kvs "search_results" with
    | some v =>
      if pyHasLen v then
        let s1 := { s with search_results := v }
        if pyTruthy v then
          match v with
          | Json.arr results =>
            match searchResultsText 1 results with
            | some lines =>
              add_message "assistant"
                ("Here are the search results:\n\n" ++ lines) none s1
            | none => s1
          | _ => s1
        else
          add_message "assistant" "No search results found." none s1
      else s
    | none => s
  | _ => s

/-- Whether a frame has a `search_results` key at all (only objects
do). -/
def frameHasSearchResults : Json → Bool
  | Json.obj kvs => (pyLookup kvs "search_results").isSome
  | _ => false

/-- `handle_websocket_error` (src/app/services/websocket_client.py
lines 145-153): logs, sets the session connected flag to `False`, and
shows a UI error toast. -/
def handle_websocket_error (s : SessionState) : SessionState :=
  { s with websocket_connected := false }

/-- `WebSocketClient._on_message` composed with the handlers registered
by `connect_websocket` (on_message = `handle_websocket_message`,
on_error = `handle_websocket_error`).  `parsed` is the result of
`json.loads`: `none` for a frame that is not valid JSON, in which case
`self.on_error("Invalid message format")` runs.  The returned list
records the reasons passed to the registered error handler.  The outer
generic `except` never fires because `handle_websocket_message` catches
its own exceptions. -/
def clientOnMessage (parsed : Option Json) (c : ClientState)
    (s : SessionState) : ClientState × SessionState × List String :=
  match parsed with
  | none =>
    (c, handle_websocket_error s, ["Invalid message format"])
  | some data => (c, handle_websocket_message data s, [])

/-- What `connect_websocket` reports to the sidebar. -/
inductive ConnectReport where
  | alreadyConnected
  | initiated
deriving DecidableEq

/-- `WebSocketClient.connect` (src/app/services/websocket_client.py
lines 32-56): creates the `WebSocketApp` and starts the receive thread;
`is_connected` is only flipped later by the `_on_open` callback. -/
def WebSocketClient_connect (c : ClientState) : ClientState :=
  { c with ws_created := true, thread_started := true }

/-- `connect_websocket` (src/app/components/sidebar.py lines 85-121):
when the session connected flag is set it warns "WebSocket already
connected" and returns without touching anything; otherwise it builds a
fresh client from the configured URL, connects it and stores it in the
session.  In this model the guarded body cannot raise, so the `except`
branch is dead. -/
def connect_websocket (s : SessionState) : SessionState × ConnectReport :=
  if s.websocket_connected then (s, ConnectReport.alreadyConnected)
  else
    let client : ClientState :=
      { websocket_url := s.config.aws_websocket_url
        ws_created := false
        thread_started := false
        is_connected := false }
    let client := WebSocketClient_connect client
    ({ s with websocket_client := some client }, ConnectReport.initiated)

/-- Appending a batch of messages through `add_message`, used to state
the clear-after-append property. -/
def appendMany (items : List (String × String × Option String))
    (s : SessionState) : SessionState :=
  items.foldl (fun st it => add_message it.1 it.2.1 it.2.2 st) s

/-! ## Helper lemmas -/

/-- `subList` decides substring containment. -/
theorem subList_iff (needle hay : List Char) :
    subList needle hay = true ↔ ∃ pre post, hay = pre ++ needle ++ post := by
  induction hay with
  | nil =>
    rw [subList]
    simp only [Bool.or_false]
    rw [List.isPrefixOf_iff_prefix]
    constructor
    · intro h
      obtain ⟨t, ht⟩ := h
      exact ⟨[], t, by simp [← ht]⟩
    · rintro ⟨pre, post, h⟩
      have hn : needle = [] := by
        cases needle with
        | nil => rfl
        | cons a as => simp at h
      subst hn
      exact ⟨[], rfl⟩
  | cons c t ih =>
    rw [subList]
    simp only [Bool.or_eq_true]
    constructor
    · intro h
      cases h with
      | inl hp =>
        rw [List.isPrefixOf_iff_prefix] at hp
        obtain ⟨tl, htl⟩ := hp
        exact ⟨[], tl, by simp [← htl]⟩
      | inr hs =>
        obtain ⟨pre, post, hpp⟩ := ih.mp hs
        exact ⟨c :: pre, post, by simp [hpp]⟩
    · rintro ⟨pre, post, h⟩
      cases pre with
      | nil =>
        left
        rw [List.isPrefixOf_iff_prefix]
        refine ⟨post, ?_⟩
        simp only [List.nil_append] at h
        exact h.symm
      | cons p ps =>
        right
        apply ih.mpr
        have h2 : t = ps ++ needle ++ post := by
          have h3 := congrArg List.tail h
          simpa using h3
        exact ⟨ps, post, h2⟩

/-- `formatResultLine` on a record that extracts successfully produces
exactly the claimed `idx. title: snippet` line. -/
theorem formatResultLine_extract (i : Nat) (r : Json) (rec : SearchResult)
    (h : extractRecord r = some rec) :
    formatResultLine i r =
      some (toString i ++ ". " ++ rec.title ++ ": " ++ rec.snippet ++ "\n") := by
  cases r with
  | obj kvs =>
    cases h1 : pyLookup kvs "title" with
    | none => simp [extractRecord, h1] at h
    | some tv =>
      cases h2 : pyLookup kvs "snippet" with
      | none => simp [extractRecord, h1, h2] at h
      | some sv =>
        cases h3 : pyStrScalar tv with
        | none => simp [extractRecord, h1, h2, h3] at h
        | some t =>
          cases h4 : pyStrScalar sv with
          | none => simp [extractRecord, h1, h2, h3, h4] at h
          | some sn =>
            simp only [extractRecord, h1, h2, h3, h4,
              Option.some.injEq] at h
            subst h
            simp [formatResultLine, h1, h2, h3, h4]
  | null => simp [extractRecord] at h
  | bool b => simp [extractRecord] at h
  | num n => simp [extractRecord] at h
  | str s2 => simp [extractRecord] at h
  | arr xs => simp [extractRecord] at h

/-- The loop of `handle_websocket_message` computes the claimed
enumeration whenever every element extracts as a record. -/
theorem searchResultsText_extract (results : List Json) :
    ∀ (i : Nat) (recs : List SearchResult),
      extractRecords results = some recs →
      searchResultsText i results = some (specLinesFrom i recs) := by
  induction results with
  | nil =>
    intro i recs h
    simp only [extractRecords, Option.some.injEq] at h
    subst h
    rfl
  | cons r rest ih =>
    intro i recs h
    rw [extractRecords] at h
    cases hr : extractRecord r with
    | none => rw [hr] at h; simp at h
    | some rec =>
      rw [hr] at h
      cases hrest : extractRecords rest with
      | none => rw [hrest] at h; simp at h
      | some recs2 =>
        rw [hrest] at h
        simp only [Option.some.injEq] at h
        subst h
        rw [searchResultsText]
        rw [formatResultLine_extract i r rec hr]
        rw [ih (i + 1) recs2 hrest]
        rfl

/-- The payload component of a dispatch is always the one built from
the pre-call session. -/
theorem perform_search_call (q : String) (o : HttpOutcome)
    (s : SessionState) :
    (perform_search q o s).2.2 =
      { query := q, conversation_id := payloadConversationId s } := rfl

/-! ## Claim theorems -/

/-- C4: `should_use_semantic_search` returns `true` precisely when the
lowercased input contains one of the eight fixed keywords as a
substring; it is a pure function of its input (a plain `def` with no
state in this embedding). -/
theorem C4_should_search_iff (s : String) :
    should_use_semantic_search s = true ↔
      ∃ kw, kw ∈ search_keywords ∧
        ∃ pre post : List Char,
          (strLower s).data = pre ++ kw.data ++ post := by
  unfold should_use_semantic_search pyInStr
  rw [List.any_eq_true]
  constructor
  · rintro ⟨kw, hmem, hkw⟩
    obtain ⟨pre, post, hp⟩ :=
      (subList_iff kw.data (strLower s).data).mp hkw
    exact ⟨kw, hmem, pre, post, hp⟩
  · rintro ⟨kw, hmem, pre, post, hp⟩
    exact ⟨kw, hmem,
      (subList_iff kw.data (strLower s).data).mpr ⟨pre, post, hp⟩⟩

/-- C7: appending any batch of messages and then clearing yields an
empty transcript and a null conversation id. -/
theorem C7_clear_after_append
    (items : List (String × String × Option String)) (s : SessionState) :
    (clear_conversation (appendMany items s)).messages = [] ∧
    (clear_conversation (appendMany items s)).conversation_id = Json.null :=
  ⟨rfl, rfl⟩

/-- C9: the stored message record carries a `search_query` field exactly
when the argument is a non-empty string; `none` and `""` both yield a
record without the field. -/
theorem C9_search_query_presence (role content : String)
    (sq : Option String) (s : SessionState) :
    (add_message role content sq s).messages =
      s.messages ++
        [{ role := role
           content := content
           timestamp := s.timestampField.getD 0
           search_query := if strTruthy sq then sq else none }] ∧
    ((if strTruthy sq then sq else none) ≠ (none : Option String) ↔
      ∃ t, sq = some t ∧ t ≠ "") := by
  refine ⟨rfl, ?_⟩
  cases sq with
  | none => simp [strTruthy]
  | some t =>
    by_cases ht : t = ""
    · subst ht
      simp [strTruthy]
    · simp [strTruthy, ht]

/-- C10: `clear_conversation` resets exactly `messages`,
`conversation_id` and `search_results`, and leaves the connection flag,
model selection, stored client, timestamp entry and configuration
untouched. -/
theorem C10_clear_frame (s : SessionState) :
    clear_conversation s =
      { s with
        messages := []
        conversation_id := Json.null
        search_results := Json.arr [] } ∧
    (clear_conversation s).websocket_connected = s.websocket_connected ∧
    (clear_conversation s).openai_model = s.openai_model ∧
    (clear_conversation s).websocket_client = s.websocket_client ∧
    (clear_conversation s).timestampField = s.timestampField ∧
    (clear_conversation s).config = s.config :=
  ⟨rfl, rfl, rfl, rfl, rfl, rfl⟩

/-- C8: calling `connect_websocket` while the session is already
connected is a no-op that reports the already-connected signal and
stores no new client. -/
theorem C8_connect_idempotent (s : SessionState)
    (h : s.websocket_connected = true) :
    connect_websocket s = (s, ConnectReport.alreadyConnected) := by
  unfold connect_websocket
  rw [h]
  rfl

/-- C8 witness: a concrete already-connected session. -/
theorem C8_connect_idempotent_witness :
    ({ initial_session_state load_config_defaults with
        websocket_connected := true } : SessionState).websocket_connected
      = true ∧
    connect_websocket
        { initial_session_state load_config_defaults with
          websocket_connected := true } =
      ({ initial_session_state load_config_defaults with
          websocket_connected := true }, ConnectReport.alreadyConnected) :=
  ⟨rfl, C8_connect_idempotent
    { initial_session_state load_config_defaults with
      websocket_connected := true } rfl⟩

/-- C1 counterexample: at a malformed frame arriving on a connected
session, the reason handed to the registered error handler is
"Invalid message format", not the claimed "invalid message format", and
the session connected flag is NOT the same afterwards: the registered
error handler (`handle_websocket_error`) resets it to `false`. -/
theorem C1_counterexample :
    (clientOnMessage none ⟨"", true, true, true⟩
        { initial_session_state load_config_defaults with
          websocket_connected := true }).2.2 ≠
      ["invalid message format"] ∧
    (clientOnMessage none ⟨"", true, true, true⟩
        { initial_session_state load_config_defaults with
          websocket_connected := true }).2.1.websocket_connected ≠
      ({ initial_session_state load_config_defaults with
          websocket_connected := true } : SessionState).websocket_connected := by
  constructor
  · decide
  · decide

/-- C1 (amended): for every inbound frame that is not valid JSON, the
client invokes the registered error handler once with the fixed reason
"Invalid message format"; the client object itself is untouched (its
`is_connected` flag keeps its value and the socket is not closed, so
the connection is kept alive), but the registered error handler sets
the session-level connected flag to `false`. -/
theorem C1_malformed_frame (c : ClientState) (s : SessionState) :
    clientOnMessage none c s =
      (c, { s with websocket_connected := false },
        ["Invalid message format"]) := rfl

/-- C3 counterexample: after a failed dispatch (status 500) the caller
returns exactly the same reply as after an accepted dispatch — the
fixed text "Searching for relevant information..." — so no
user-visible "couldn't search" failure message is produced, even
though the dispatch itself reported `false`. -/
theorem C3_counterexample :
    (process_user_input "search cats" (Except.ok "r")
        (HttpOutcome.response 500 none)
        (initial_session_state load_config_defaults)).1 =
      (process_user_input "search cats" (Except.ok "r")
        (HttpOutcome.response 202 none)
        (initial_session_state load_config_defaults)).1 ∧
    (process_user_input "search cats" (Except.ok "r")
        (HttpOutcome.response 500 none)
        (initial_session_state load_config_defaults)).1 =
      "Searching for relevant information..." ∧
    (perform_search "search cats" (HttpOutcome.response 500 none)
        (initial_session_state load_config_defaults)).1 = false := by
  refine ⟨?_, ?_, ?_⟩ <;> decide

/-- C3 (amended): every failed dispatch — any non-202 status or a
transport exception — makes `perform_search` return `false` without
raising and leaves the whole session (in particular the stored
conversation id) unchanged; the caller that routed the message to
search does not crash, but it ignores the boolean and returns the
fixed text "Searching for relevant information..." regardless of the
outcome, with no distinct failure message. -/
theorem C3_dispatch_failure (q : String) (o : HttpOutcome)
    (s : SessionState) (comp : Except String String)
    (hfail : outcomeAccepted o = false)
    (hroute : should_use_semantic_search q = true) :
    (perform_search q o s).1 = false ∧
    (perform_search q o s).2.1 = s ∧
    (process_user_input q comp o s).1 =
      "Searching for relevant information..." ∧
    (process_user_input q comp o s).2.1 = add_message "user" q none s := by
  have hps : ∀ s2 : SessionState,
      perform_search q o s2 =
        (false, s2,
          { query := q, conversation_id := payloadConversationId s2 }) := by
    intro s2
    cases o with
    | exn => rfl
    | response status body =>
      simp only [outcomeAccepted] at hfail
      simp [perform_search, hfail]
  refine ⟨by rw [hps s], by rw [hps s], ?_, ?_⟩
  · simp [process_user_input, hroute]
  · simp [process_user_input, hroute, hps (add_message "user" q none s)]

/-- C3 witness: a concrete non-202 dispatch on a fresh session. -/
theorem C3_dispatch_failure_witness :
    outcomeAccepted (HttpOutcome.response 500 none) = false ∧
    should_use_semantic_search "search cats" = true ∧
    (perform_search "search cats" (HttpOutcome.response 500 none)
        (initial_session_state load_config_defaults)).1 = false ∧
    (perform_search "search cats" (HttpOutcome.response 500 none)
        (initial_session_state load_config_defaults)).2.1 =
      initial_session_state load_config_defaults :=
  ⟨rfl, by decide,
    (C3_dispatch_failure "search cats" (HttpOutcome.response 500 none)
      (initial_session_state load_config_defaults) (Except.ok "r")
      rfl (by decide)).1,
    (C3_dispatch_failure "search cats" (HttpOutcome.response 500 none)
      (initial_session_state load_config_defaults) (Except.ok "r")
      rfl (by decide)).2.1⟩

/-- C5 counterexample: a failed completion yields the textual reply
"Error: boom" to the caller, but NO assistant-role message is appended
to the transcript — the error text is not surfaced as chat text. -/
theorem C5_counterexample :
    (process_user_input "hello there" (Except.error "boom")
        HttpOutcome.exn (initial_session_state load_config_defaults)).1 =
      "Error: boom" ∧
    ((process_user_input "hello there" (Except.error "boom")
        HttpOutcome.exn
        (initial_session_state load_config_defaults)).2.1.messages.filter
      (fun m => m.role == "assistant")) = [] := by
  constructor <;> decide

/-- C5 (amended): for every failure of the completion call on a
non-search-routed input, processing does not raise to the session: the
failure becomes the textual reply "Error: <reason>" returned to the
caller, the transcript gains only the user message, and no
assistant-role message is appended (the error text is returned but not
stored or displayed as chat text). -/
theorem C5_completion_failure (input e : String) (o : HttpOutcome)
    (s : SessionState)
    (hroute : should_use_semantic_search input = false) :
    (process_user_input input (Except.error e) o s).1 = "Error: " ++ e ∧
    (process_user_input input (Except.error e) o s).2.1 =
      add_message "user" input none s ∧
    ((process_user_input input (Except.error e) o s).2.1.messages.filter
        (fun m => m.role == "assistant")) =
      s.messages.filter (fun m => m.role == "assistant") := by
  refine ⟨?_, ?_, ?_⟩
  · simp [process_user_input, hroute]
  · simp [process_user_input, hroute]
  · simp [process_user_input, hroute, add_message, List.filter_append]

/-- C5 witness: a concrete failing completion on a plain greeting. -/
theorem C5_completion_failure_witness :
    should_use_semantic_search "hello there" = false ∧
    (process_user_input "hello there" (Except.error "boom")
        HttpOutcome.exn (initial_session_state load_config_defaults)).1 =
      "Error: " ++ "boom" :=
  ⟨by decide,
    (C5_completion_failure "hello there" "boom" HttpOutcome.exn
      (initial_session_state load_config_defaults) (by decide)).1⟩

/-- C6: a dispatch from a session with no stored conversation id,
answered 202 with body carrying conversation_id "abc", succeeds, sends
"new_conversation" in its own payload, and stores "abc"; every
subsequent dispatch from the updated session sends "abc", while any
dispatch from a session with a null stored id sends
"new_conversation". -/
theorem C6_conversation_adoption (q q2 : String) (o2 : HttpOutcome)
    (s : SessionState) (habs : s.conversation_id = Json.null) :
    (perform_search q (HttpOutcome.response 202
        (some (Json.obj [("conversation_id", Json.str "abc")]))) s).1 =
      true ∧
    (perform_search q (HttpOutcome.response 202
        (some (Json.obj [("conversation_id", Json.str "abc")])))
        s).2.1.conversation_id = Json.str "abc" ∧
    (perform_search q (HttpOutcome.response 202
        (some (Json.obj [("conversation_id", Json.str "abc")])))
        s).2.2.conversation_id = Json.str "new_conversation" ∧
    (perform_search q2 o2
        (perform_search q (HttpOutcome.response 202
          (some (Json.obj [("conversation_id", Json.str "abc")])))
          s).2.1).2.2.conversation_id = Json.str "abc" ∧
    (∀ (q3 : String) (o3 : HttpOutcome) (s3 : SessionState),
      s3.conversation_id = Json.null →
        (perform_search q3 o3 s3).2.2.conversation_id =
          Json.str "new_conversation") := by
  have hstep : perform_search q (HttpOutcome.response 202
      (some (Json.obj [("conversation_id", Json.str "abc")]))) s =
    (true, { s with conversation_id := Json.str "abc" },
      { query := q, conversation_id := Json.str "new_conversation" }) := by
    unfold perform_search payloadConversationId
    rw [habs]
    rfl
  have hnull : ∀ (q3 : String) (o3 : HttpOutcome) (s3 : SessionState),
      s3.conversation_id = Json.null →
        (perform_search q3 o3 s3).2.2.conversation_id =
          Json.str "new_conversation" := by
    intro q3 o3 s3 h3
    rw [perform_search_call]
    unfold payloadConversationId
    rw [h3]
    rfl
  refine ⟨by rw [hstep], by rw [hstep], by rw [hstep], ?_, hnull⟩
  rw [hstep, perform_search_call]
  unfold payloadConversationId
  rfl

/-- C6 witness: a concrete first and second dispatch from a fresh
session. -/
theorem C6_conversation_adoption_witness :
    (initial_session_state load_config_defaults).conversation_id =
      Json.null ∧
    (perform_search "q" (HttpOutcome.response 202
        (some (Json.obj [("conversation_id", Json.str "abc")])))
        (initial_session_state load_config_defaults)).2.1.conversation_id =
      Json.str "abc" ∧
    (perform_search "q2" HttpOutcome.exn
        (perform_search "q" (HttpOutcome.response 202
          (some (Json.obj [("conversation_id", Json.str "abc")])))
          (initial_session_state
            load_config_defaults)).2.1).2.2.conversation_id =
      Json.str "abc" :=
  ⟨rfl,
    (C6_conversation_adoption "q" "q2" HttpOutcome.exn
      (initial_session_state load_config_defaults) rfl).2.1,
    (C6_conversation_adoption "q" "q2" HttpOutcome.exn
      (initial_session_state load_config_defaults) rfl).2.2.2.1⟩

/-- C2: for a parsed frame whose `search_results` value is a non-empty
array of extractable `{title, snippet}` records, exactly one assistant
message is appended, whose text enumerates the results as
`i. title: snippet` lines after the fixed header; for the empty array,
exactly one assistant message "No search results found." is appended;
a frame without the `search_results` key leaves the session unchanged;
and no parsed frame ever invokes the registered error handler. -/
theorem C2_message_dispatch (s : SessionState)
    (kvs : List (String × Json)) (results : List Json)
    (recs : List SearchResult) :
    (pyLookup kvs "search_results" = some (Json.arr results) →
      results ≠ [] →
      extractRecords results = some recs →
      (handle_websocket_message (Json.obj kvs) s).messages =
        s.messages ++
          [{ role := "assistant"
             content := "Here are the search results:\n\n" ++
               specLinesFrom 1 recs
             timestamp := s.timestampField.getD 0
             search_query := none }]) ∧
    (pyLookup kvs "search_results" = some (Json.arr []) →
      (handle_websocket_message (Json.obj kvs) s).messages =
        s.messages ++
          [{ role := "assistant"
             content := "No search results found."
             timestamp := s.timestampField.getD 0
             search_query := none }]) ∧
    (∀ frame : Json, frameHasSearchResults frame = false →
      handle_websocket_message frame s = s) ∧
    (∀ (frame : Json) (c : ClientState),
      (clientOnMessage (some frame) c s).2.2 = ([] : List String)) := by
  refine ⟨?_, ?_, ?_, ?_⟩
  · intro h hne hrec
    have htext := searchResultsText_extract results 1 recs hrec
    have htru : pyTruthy (Json.arr results) = true := by
      simp [pyTruthy, hne]
    simp [handle_websocket_message, h, pyHasLen, htru, htext, add_message]
  · intro h
    simp [handle_websocket_message, h, pyHasLen, pyTruthy, add_message]
  · intro frame hf
    cases frame with
    | obj kvs2 =>
      cases hl : pyLookup kvs2 "search_results" with
      | none => simp [handle_websocket_message, hl]
      | some v => simp [frameHasSearchResults, hl] at hf
    | null => rfl
    | bool b => rfl
    | num n => rfl
    | str s2 => rfl
    | arr xs => rfl
  · intro frame c
    rfl

/-- C2 witness: the three concrete frames of the specification. -/
theorem C2_message_dispatch_witness :
    (handle_websocket_message
        (Json.obj [("search_results", Json.arr
          [Json.obj [("title", Json.str "A"), ("snippet", Json.str "B")]])])
        (initial_session_state load_config_defaults)).messages =
      [{ role := "assistant"
         content := "Here are the search results:\n\n" ++
           specLinesFrom 1 [{ title := "A", snippet := "B" }]
         timestamp := 0
         search_query := none }] ∧
    (handle_websocket_message
        (Json.obj [("search_results", Json.arr [])])
        (initial_session_state load_config_defaults)).messages =
      [{ role := "assistant"
         content := "No search results found."
         timestamp := 0
         search_query := none }] ∧
    handle_websocket_message (Json.obj [("other", Json.num 1)])
        (initial_session_state load_config_defaults) =
      initial_session_state load_config_defaults := by
  have h1 := (C2_message_dispatch
      (initial_session_state load_config_defaults)
      [("search_results", Json.arr
        [Json.obj [("title", Json.str "A"), ("snippet", Json.str "B")]])]
      [Json.obj [("title", Json.str "A"), ("snippet", Json.str "B")]]
      [{ title := "A", snippet := "B" }]).1 rfl
      (List.cons_ne_nil _ _) rfl
  have h2 := (C2_message_dispatch
      (initial_session_state load_config_defaults)
      [("search_results", Json.arr [])] [] []).2.1 rfl
  have h3 := (C2_message_dispatch
      (initial_session_state load_config_defaults)
      [] [] []).2.2.1 (Json.obj [("other", Json.num 1)]) rfl
  exact ⟨by simpa using h1, by simpa using h2, h3⟩
